import Mathlib

/-!
Verification development for `lftp_transfer.py` (willmorrison1/files-transfer).

The script is a single sequential pipeline: read/seed a watermark date
(`MinDate`), enumerate candidate files by strftime-style dir/file masks and
the day range from the watermark to the next-day midnight boundary, stage
them, invoke `lftp`, and rewrite the watermark from the transfer log
(`find_last_date_in_log`).

Shallow embedding conventions:
- Strings are `List Char` (`Str`); Python `datetime` values are records of
  calendar fields, compared via the lexicographic key `DateTime.key`
  (identical to Python's field-lexicographic comparison for in-range fields).
- `datetime.timedelta` arithmetic goes through a proleptic-Gregorian day
  number (`toRataDie` / `fromRataDie`, Hinnant's civil-date algorithm).
- `datetime.strptime` is modelled for the directives actually used by the
  script (`%Y %m %d %H %M %S` plus literal characters) with CPython's
  `_strptime` field regexes (`%Y` = 4 digits, `%m` = `1[0-2]|0[1-9]|[1-9]`,
  etc.), ordered alternation with backtracking, a full-string match
  requirement, 1900-01-01 defaults, and the `datetime` constructor's range
  validation.  Masks are token lists; literal tokens are assumed to be
  non-whitespace, non-glob-metacharacter characters, and no directive occurs
  twice in a mask (as in the script's intended configurations).
- Fallible Python code (uncaught `ValueError` from `strptime`) is embedded
  with `Except`/`Option`.
-/

deriving instance DecidableEq for Except

/-- Strings as lists of characters. -/
abbrev Str := List Char

/-- A Python `datetime.datetime` (second precision; the script never uses
microseconds). -/
structure DateTime where
  year : Nat
  month : Nat
  day : Nat
  hour : Nat
  minute : Nat
  second : Nat
deriving DecidableEq

/-- Lexicographic comparison key.  For field values in their calendar ranges
(month/day/hour/minute/second below 100) this order coincides with Python's
field-by-field `datetime` comparison. -/
def DateTime.key (d : DateTime) : Nat :=
  ((((d.year * 100 + d.month) * 100 + d.day) * 100 + d.hour) * 100 + d.minute) * 100
    + d.second

/-- Gregorian leap-year test (as in Python's `calendar`/`datetime`). -/
def isLeap (y : Nat) : Bool :=
  y % 4 == 0 && (y % 100 != 0 || y % 400 == 0)

/-- Days in a month of the proleptic Gregorian calendar. -/
def daysInMonth (y m : Nat) : Nat :=
  if m = 2 then (if isLeap y then 29 else 28)
  else if m = 4 ∨ m = 6 ∨ m = 9 ∨ m = 11 then 30
  else 31

/-- The `datetime` constructor's field validation (`MINYEAR = 1`,
`MAXYEAR = 9999`, day checked against the month length, second at most 59). -/
def validDT (d : DateTime) : Bool :=
  decide (1 ≤ d.year) && decide (d.year ≤ 9999) &&
  decide (1 ≤ d.month) && decide (d.month ≤ 12) &&
  decide (1 ≤ d.day) && decide (d.day ≤ daysInMonth d.year d.month) &&
  decide (d.hour ≤ 23) && decide (d.minute ≤ 59) && decide (d.second ≤ 59)

/-- Day number of a calendar date (Hinnant's `days_from_civil`, shifted so
that all supported dates, year at least 1, give a nonnegative number). -/
def toRataDie (dt : DateTime) : Nat :=
  let y := if dt.month ≤ 2 then dt.year - 1 else dt.year
  let era := y / 400
  let yoe := y % 400
  let mp := if 2 < dt.month then dt.month - 3 else dt.month + 9
  let doy := (153 * mp + 2) / 5 + dt.day - 1
  let doe := yoe * 365 + yoe / 4 - yoe / 100 + doy
  era * 146097 + doe

/-- Calendar date of a day number (Hinnant's `civil_from_days`). -/
def fromRataDie (z : Nat) : Nat × Nat × Nat :=
  let era := z / 146097
  let doe := z % 146097
  let yoe := (doe - doe / 1460 + doe / 36524 - doe / 146096) / 365
  let y := yoe + era * 400
  let doy := doe - (365 * yoe + yoe / 4 - yoe / 100)
  let mp := (5 * doy + 2) / 153
  let d := doy - (153 * mp + 2) / 5 + 1
  let m := if mp < 10 then mp + 3 else mp - 9
  (if m ≤ 2 then y + 1 else y, m, d)

/-- Seconds since the day-number origin; the linearization used to embed
`timedelta` arithmetic on `datetime` values. -/
def toAbs (d : DateTime) : Nat :=
  toRataDie d * 86400 + d.hour * 3600 + d.minute * 60 + d.second

/-- The `datetime` at a given absolute second count. -/
def fromAbs (t : Nat) : DateTime :=
  let z := t / 86400
  let sod := t % 86400
  let ymd := fromRataDie z
  ⟨ymd.1, ymd.2.1, ymd.2.2, sod / 3600, sod % 3600 / 60, sod % 60⟩

/-- Python `d + i * timedelta(days=1)`: advance the calendar date, keeping
the time of day (naive datetimes, no DST). -/
def addDays (d : DateTime) (i : Nat) : DateTime :=
  let ymd := fromRataDie (toRataDie d + i)
  ⟨ymd.1, ymd.2.1, ymd.2.2, d.hour, d.minute, d.second⟩

/-- Python `d - timedelta(seconds = n)` (for results within the supported
range). -/
def subSeconds (d : DateTime) (n : Nat) : DateTime :=
  fromAbs (toAbs d - n)

/-- Python `(a - b).days`: the `timedelta` day component, i.e. the floor of
the difference in seconds divided by 86400. -/
def deltaDaysFloor (a b : DateTime) : Int :=
  Int.fdiv ((toAbs a : Int) - (toAbs b : Int)) 86400

/-- The day list of `main` (lines 239-240):
`[min_date + i * ONE_DAY for i in range((now - min_date).days + 1)]`. -/
def listDates (w now : DateTime) : List DateTime :=
  (List.range (deltaDaysFloor now w + 1).toNat).map (fun i => addDays w i)

/-- One token of a strftime-style mask: a literal character or one of the
directives the script's masks use. -/
inductive Tok where
  | lit (c : Char)
  | Y
  | m
  | d
  | H
  | Mi
  | S
deriving DecidableEq

/-- A strftime-style mask, e.g. `"pref_%Y%m%d"`. -/
abbrev Mask := List Tok

/-- Numeric value of a decimal digit character. -/
def digitVal (c : Char) : Option Nat :=
  if c.isDigit then some (c.toNat - 48) else none

/-- Two-digit zero-padded rendering (all rendered fields are below 100). -/
def pad2 (n : Nat) : Str :=
  [Nat.digitChar (n / 10 % 10), Nat.digitChar (n % 10)]

/-- Four-digit zero-padded rendering (years are at most 9999). -/
def pad4 (n : Nat) : Str :=
  [Nat.digitChar (n / 1000 % 10), Nat.digitChar (n / 100 % 10),
   Nat.digitChar (n / 10 % 10), Nat.digitChar (n % 10)]

/-- Python `d.strftime(mask)` for the supported directives (zero-padded
fields, as CPython documents for `%Y %m %d %H %M %S`). -/
def strftime (mask : Mask) (d : DateTime) : Str :=
  mask.flatMap fun t =>
    match t with
    | .lit c => [c]
    | .Y => pad4 d.year
    | .m => pad2 d.month
    | .d => pad2 d.day
    | .H => pad2 d.hour
    | .Mi => pad2 d.minute
    | .S => pad2 d.second

/-- One character of a glob pattern: a literal or the `?` single-character
wildcard. -/
inductive GChar where
  | lit (c : Char)
  | any
deriving DecidableEq

/-- The glob pattern the script builds per candidate day (lines 248-252):
`re.sub` replaces `%H`, `%M`, `%S` in the mask with `"??"`, then `strftime`
fills the remaining directives with the day's digits. -/
def globPattern (mask : Mask) (d : DateTime) : List GChar :=
  mask.flatMap fun t =>
    match t with
    | .lit c => [GChar.lit c]
    | .Y => (pad4 d.year).map GChar.lit
    | .m => (pad2 d.month).map GChar.lit
    | .d => (pad2 d.day).map GChar.lit
    | .H => [GChar.any, GChar.any]
    | .Mi => [GChar.any, GChar.any]
    | .S => [GChar.any, GChar.any]

/-- Glob matching of a name against a pattern (`?` matches exactly one
character; names are single path components). -/
def globMatch : List GChar → Str → Bool
  | [], [] => true
  | GChar.lit c :: ps, x :: xs => c == x && globMatch ps xs
  | GChar.any :: ps, _ :: xs => globMatch ps xs
  | _, _ => false

/-- Partial field assignment accumulated by the `strptime` parser. -/
structure Fields where
  fy : Option Nat := none
  fmo : Option Nat := none
  fd : Option Nat := none
  fh : Option Nat := none
  fmi : Option Nat := none
  fsec : Option Nat := none
deriving DecidableEq

/-- Record a directive's parsed value. -/
def setField : Tok → Nat → Fields → Fields
  | .lit _, _, f => f
  | .Y, v, f => { f with fy := some v }
  | .m, v, f => { f with fmo := some v }
  | .d, v, f => { f with fd := some v }
  | .H, v, f => { f with fh := some v }
  | .Mi, v, f => { f with fmi := some v }
  | .S, v, f => { f with fsec := some v }

/-- The ordered candidate matches (value, consumed length) of one directive
at the head of the input — exactly the alternatives, in order, of CPython's
`_strptime` regexes: `%Y` = `\d\d\d\d`, `%m` = `1[0-2]|0[1-9]|[1-9]`,
`%d` = `3[01]|[12]\d|0[1-9]|[1-9]`, `%H` = `2[0-3]|[0-1]\d|\d`,
`%M` = `[0-5]\d|\d`, `%S` = `6[0-1]|[0-5]\d|\d`. -/
def cands : Tok → Str → List (Nat × Nat)
  | .lit _, _ => []
  | .Y, c1 :: c2 :: c3 :: c4 :: _ =>
    (match digitVal c1, digitVal c2, digitVal c3, digitVal c4 with
     | some v1, some v2, some v3, some v4 =>
       [(v1 * 1000 + v2 * 100 + v3 * 10 + v4, 4)]
     | _, _, _, _ => [])
  | .Y, _ => []
  | .m, cs =>
    (match cs with
     | '1' :: c :: _ =>
       match digitVal c with
       | some v => if v ≤ 2 then [(10 + v, 2)] else []
       | none => []
     | _ => []) ++
    (match cs with
     | '0' :: c :: _ =>
       match digitVal c with
       | some v => if 1 ≤ v then [(v, 2)] else []
       | none => []
     | _ => []) ++
    (match cs with
     | c :: _ =>
       match digitVal c with
       | some v => if 1 ≤ v then [(v, 1)] else []
       | none => []
     | _ => [])
  | .d, cs =>
    (match cs with
     | '3' :: c :: _ =>
       match digitVal c with
       | some v => if v ≤ 1 then [(30 + v, 2)] else []
       | none => []
     | _ => []) ++
    (match cs with
     | c1 :: c2 :: _ =>
       match digitVal c1, digitVal c2 with
       | some v1, some v2 => if 1 ≤ v1 ∧ v1 ≤ 2 then [(v1 * 10 + v2, 2)] else []
       | _, _ => []
     | _ => []) ++
    (match cs with
     | '0' :: c :: _ =>
       match digitVal c with
       | some v => if 1 ≤ v then [(v, 2)] else []
       | none => []
     | _ => []) ++
    (match cs with
     | c :: _ =>
       match digitVal c with
       | some v => if 1 ≤ v then [(v, 1)] else []
       | none => []
     | _ => [])
  | .H, cs =>
    (match cs with
     | '2' :: c :: _ =>
       match digitVal c with
       | some v => if v ≤ 3 then [(20 + v, 2)] else []
       | none => []
     | _ => []) ++
    (match cs with
     | c1 :: c2 :: _ =>
       match digitVal c1, digitVal c2 with
       | some v1, some v2 => if v1 ≤ 1 then [(v1 * 10 + v2, 2)] else []
       | _, _ => []
     | _ => []) ++
    (match cs with
     | c :: _ =>
       match digitVal c with
       | some v => [(v, 1)]
       | none => []
     | _ => [])
  | .Mi, cs =>
    (match cs with
     | c1 :: c2 :: _ =>
       match digitVal c1, digitVal c2 with
       | some v1, some v2 => if v1 ≤ 5 then [(v1 * 10 + v2, 2)] else []
       | _, _ => []
     | _ => []) ++
    (match cs with
     | c :: _ =>
       match digitVal c with
       | some v => [(v, 1)]
       | none => []
     | _ => [])
  | .S, cs =>
    (match cs with
     | '6' :: c :: _ =>
       match digitVal c with
       | some v => if v ≤ 1 then [(60 + v, 2)] else []
       | none => []
     | _ => []) ++
    (match cs with
     | c1 :: c2 :: _ =>
       match digitVal c1, digitVal c2 with
       | some v1, some v2 => if v1 ≤ 5 then [(v1 * 10 + v2, 2)] else []
       | _, _ => []
     | _ => []) ++
    (match cs with
     | c :: _ =>
       match digitVal c with
       | some v => [(v, 1)]
       | none => []
     | _ => [])

/-- The regex-with-backtracking matcher underlying `strptime`: literals match
themselves, a directive tries its alternatives in order, and the whole input
must be consumed (CPython raises unless `found.end()` equals the string
length). -/
def parseToks : Mask → Str → Fields → Option Fields
  | [], cs, fl => if cs = [] then some fl else none
  | Tok.lit c :: ts, cs, fl =>
    (match cs with
     | [] => none
     | x :: xs => if x = c then parseToks ts xs fl else none)
  | t :: ts, cs, fl =>
    (cands t cs).findSome? fun p => parseToks ts (cs.drop p.2) (setField t p.1 fl)

/-- Python `datetime.strptime(s, mask)` as an `Option`: `none` is the raised
`ValueError`.  Unset fields default to 1900-01-01 00:00:00, and the resulting
fields must pass the `datetime` constructor's validation. -/
def strptime (s : Str) (mask : Mask) : Option DateTime :=
  match parseToks mask s {} with
  | none => none
  | some fl =>
    let d : DateTime :=
      ⟨fl.fy.getD 1900, fl.fmo.getD 1, fl.fd.getD 1,
       fl.fh.getD 0, fl.fmi.getD 0, fl.fsec.getD 0⟩
    if validDT d then some d else none

/-- Python `str.split()` (line 97): split on runs of whitespace, dropping
empty pieces. -/
def splitWsAux : Str → Str → List Str
  | [], cur => if cur = [] then [] else [cur.reverse]
  | c :: cs, cur =>
    if c.isWhitespace then
      (if cur = [] then splitWsAux cs [] else cur.reverse :: splitWsAux cs [])
    else splitWsAux cs (c :: cur)

/-- Whitespace-delimited tokens of a line. -/
def splitWs (s : Str) : List Str := splitWsAux s []

/-- Python `str.split("/")` (line 97): split at every slash, keeping empty
pieces; always nonempty. -/
def splitSlash : Str → List Str
  | [] => [[]]
  | c :: cs =>
    if c = '/' then [] :: splitSlash cs
    else
      match splitSlash cs with
      | r :: rs => (c :: r) :: rs
      | [] => [[c]]

/-- Line filter of `find_last_date_in_log` (line 93):
`line.startswith("get")`. -/
def isGetLine (l : Str) : Bool := "get".toList.isPrefixOf l

/-- Filename extraction of `find_last_date_in_log` (line 97):
`line.split()[-1].split("/")[-1]` — the component after the last slash of the
last whitespace-delimited token. -/
def extractBasename (l : Str) : Str :=
  ((splitSlash ((splitWs l).getLastD [])).getLastD [])

/-- The basenames extracted from a log's `get` lines (lines 93-97). -/
def extractedFiles (lines : List Str) : List Str :=
  (lines.filter isGetLine).map extractBasename

/-- The list comprehension of line 100, with the first `strptime` failure
raising (`.error` = the propagated `ValueError`). -/
def mapParse : List Str → Mask → Except Unit (List DateTime)
  | [], _ => .ok []
  | f :: fs, mask =>
    match strptime f mask with
    | none => .error ()
    | some d =>
      match mapParse fs mask with
      | .error e => .error e
      | .ok ds => .ok (d :: ds)

/-- Python `max` over a nonempty list of datetimes: fold keeping the current
value unless a strictly greater one appears. -/
def pyMax (hd : DateTime) (l : List DateTime) : DateTime :=
  l.foldl (fun c x => if c.key < x.key then x else c) hd

/-- `find_last_date_in_log(log_file, file_mask)` (lines 71-105) over the log's
lines: keep lines starting with `"get"`, take the basename of the last
whitespace token of each, parse all of them with the file mask (a failure
raises), and return `None` for an empty list or the maximum date minus
`timedelta(minutes=60)`. -/
def find_last_date_in_log (lines : List Str) (file_mask : Mask) :
    Except Unit (Option DateTime) :=
  match mapParse (extractedFiles lines) file_mask with
  | .error e => .error e
  | .ok [] => .ok none
  | .ok (d :: ds) => .ok (some (subSeconds (pyMax d ds) 3600))

/-- An on-disk file: its directory path and its basename (the script's
`os.path.join(dir_date_mask, file_date_mask)` globbing keeps the two apart,
and `os.path.basename` recovers the basename). -/
structure FileEntry where
  dir : Str
  base : Str
deriving DecidableEq

/-- `os.path.join` of directory and basename. -/
def joinPath (f : FileEntry) : Str := f.dir ++ '/' :: f.base

/-- Lexicographic (code-point) order on strings, as Python compares `str`. -/
def strLe : Str → Str → Bool
  | [], _ => true
  | _ :: _, [] => false
  | a :: as, b :: bs =>
    if a.toNat < b.toNat then true
    else if a.toNat = b.toNat then strLe as bs
    else false

/-- Comparison of files by their full path, the key `sorted` uses on glob
results. -/
def pathLe (f g : FileEntry) : Bool := strLe (joinPath f) (joinPath g)

/-- Insert into a sorted list. -/
def insertLe (x : FileEntry) : List FileEntry → List FileEntry
  | [] => [x]
  | y :: ys => if pathLe x y then x :: y :: ys else y :: insertLe x ys

/-- Sort file entries by path.  Paths are totally ordered, so this agrees
with Python's `sorted` on the glob result. -/
def sortLe : List FileEntry → List FileEntry
  | [] => []
  | x :: xs => insertLe x (sortLe xs)

/-- `sorted(glob.glob(os.path.join(dir_date_mask, file_date_mask)))` (line
254) over a modelled filesystem: the entries whose directory matches the
day's directory pattern and whose basename matches the day's file pattern,
sorted by path. -/
def globFiles (fsys : List FileEntry) (dirMask fileMask : Mask) (d : DateTime) :
    List FileEntry :=
  sortLe (fsys.filter fun f =>
    globMatch (globPattern dirMask d) f.dir && globMatch (globPattern fileMask d) f.base)

/-- The per-day filter of lines 257-260: parse each matched basename with the
exact file mask (a failure raises) and keep files strictly newer than the
watermark. -/
def keepNew : List FileEntry → Mask → DateTime → Except Unit (List FileEntry)
  | [], _, _ => .ok []
  | f :: fs, mask, w =>
    match strptime f.base mask with
    | none => .error ()
    | some t =>
      match keepNew fs mask w with
      | .error e => .error e
      | .ok tail => .ok (if w.key < t.key then f :: tail else tail)

/-- The selection loop of lines 246-260, one day at a time in order,
appending each day's kept files. -/
def selectFiles (fsys : List FileEntry) (dirMask fileMask : Mask) (w : DateTime) :
    List DateTime → Except Unit (List FileEntry)
  | [] => .ok []
  | d :: ds =>
    match keepNew (globFiles fsys dirMask fileMask d) fileMask w with
    | .error e => .error e
    | .ok kept =>
      match selectFiles fsys dirMask fileMask w ds with
      | .error e => .error e
      | .ok rest => .ok (kept ++ rest)

/-- The candidate selector: `files_to_send` as built by lines 239-260 from
the watermark, the two masks, and `now`. -/
def filesToSend (fsys : List FileEntry) (dirMask fileMask : Mask)
    (w now : DateTime) : Except Unit (List FileEntry) :=
  selectFiles fsys dirMask fileMask w (listDates w now)

/-- The watermark persistence format `"%Y%m%dT%H%M%S"` used by
`MinDate.read` and `MinDate.write` (lines 158 and 165). -/
def wmMask : Mask := [.Y, .m, .d, .lit 'T', .H, .Mi, .S]

/-- `MinDate.write(new_min_date)` (lines 163-169): the text written to the
watermark file. -/
def minDateWriteContent (t : DateTime) : Str := strftime wmMask t

/-- `MinDate.read()` (lines 154-161) given the file's content and the
previous in-memory value: on a parse failure the `ValueError` is caught, an
error is printed (the returned flag), and `min_date` keeps its previous
value; no exception escapes. -/
def minDateRead (content : Str) (prev : Option DateTime) :
    Option DateTime × Bool :=
  match strptime content wmMask with
  | some d => (some d, false)
  | none => (prev, true)

/-- The `[FTP]` and `[files]` sections of the configuration file. -/
structure Config where
  user : Str
  password : Str
  server : Str
  remoteDir : Str
  dirMask : Mask
  fileMask : Mask
deriving DecidableEq

/-- The fixed `LFTP_OPTIONS` string (lines 28-30). -/
def LFTP_OPTIONS : Str :=
  "cache flush;set net:timeout 10s;set net:max-retries 2;set net:idle 15s;debug 3".toList

/-- `create_lftp_command(lftp, conf, data_dir, log_file)` (lines 108-142):
the argument list of the external invocation. -/
def create_lftp_command (lftp : Str) (conf : Config) (dataDir logFile : Str) :
    List Str :=
  [lftp,
   "-u".toList,
   conf.user ++ ",".toList ++ conf.password,
   conf.server,
   "-e".toList,
   LFTP_OPTIONS ++ "; mirror --log=".toList ++ logFile ++ " -R -p -L -v ".toList
     ++ dataDir ++ " ".toList ++ conf.remoteDir ++ "; bye".toList]

/-- An observable side effect of one run. -/
inductive Event where
  | writeWatermark (d : DateTime)
  | stagingCreated (files : List FileEntry)
  | transferInvoked (cmd : List Str)
  | transferReported (code : Int) (out err : Str)
deriving DecidableEq

/-- How the process ends: a `sys.exit` code, or an uncaught exception
(`TypeError` from comparing `None` with a datetime, `ValueError` from
`strptime`, `AttributeError` from `None.strftime`, `FileExistsError` from a
colliding symlink).  At the OS level every uncaught exception also exits
nonzero. -/
inductive Outcome where
  | exited (code : Nat)
  | typeError
  | valueError
  | attributeError
  | fileExistsError
deriving DecidableEq

/-- Outcome and ordered effect trace of one run. -/
structure RunResult where
  outcome : Outcome
  events : List Event
deriving DecidableEq

/-- The ambient state one invocation of `main` runs against: the CLI option,
the watermark file, `lftp` availability and path, the configuration, the
computed `now` (line 232: next-day midnight), the filesystem, the fresh
staging directory path, the external tool's exit code and captured output,
and the transfer log's lines as read back at line 286. -/
structure Env where
  since : Option DateTime
  wmFileExists : Bool
  wmContent : Str
  lftpAvailable : Bool
  lftpPath : Str
  conf : Config
  now : DateTime
  fsys : List FileEntry
  workDir : Str
  logFilePath : Str
  transferCode : Int
  transferOut : Str
  transferErr : Str
  logAfter : List Str
deriving DecidableEq

/-- `main` (lines 201-289).  Notable source facts embedded here:
`MinDate.write` never assigns `self.min_date`, so after the `--since` branch
the in-memory watermark is still `None` and line 235's comparison raises
`TypeError`; the `lftp` availability check runs before that comparison; a
reconciliation returning `None` makes line 286 call `write(None)`, whose
`new_min_date.strftime` raises `AttributeError` (not the caught
`ValueError`); duplicate basenames among the candidates make `os.symlink`
raise `FileExistsError` at line 269. -/
def mainRun (e : Env) : RunResult :=
  if e.wmFileExists = false ∧ e.since = none then ⟨.exited 1, []⟩
  else
    match e.since with
    | some s =>
      if e.lftpAvailable then ⟨.typeError, [.writeWatermark s]⟩
      else ⟨.exited 1, [.writeWatermark s]⟩
    | none =>
      match strptime e.wmContent wmMask with
      | none =>
        if e.lftpAvailable then ⟨.typeError, []⟩ else ⟨.exited 1, []⟩
      | some w =>
        if e.lftpAvailable = false then ⟨.exited 1, []⟩
        else if e.now.key ≤ w.key then ⟨.exited 1, []⟩
        else
          match filesToSend e.fsys e.conf.dirMask e.conf.fileMask w e.now with
          | .error _ => ⟨.valueError, []⟩
          | .ok files =>
            if files = [] then ⟨.exited 0, []⟩
            else if (files.map FileEntry.base).Nodup then
              let cmd := create_lftp_command e.lftpPath e.conf e.workDir e.logFilePath
              let evs := [Event.stagingCreated files, Event.transferInvoked cmd,
                          Event.transferReported e.transferCode e.transferOut e.transferErr]
              match find_last_date_in_log e.logAfter e.conf.fileMask with
              | .error _ => ⟨.valueError, evs⟩
              | .ok none => ⟨.attributeError, evs⟩
              | .ok (some d) => ⟨.exited 0, evs ++ [.writeWatermark d]⟩
            else ⟨.fileExistsError, [.stagingCreated files]⟩

/-- A run that reaches the external transfer invocation: no `--since`, a
parseable watermark file, `lftp` present, watermark before `now`, a nonempty
candidate list, and no symlink collision. -/
def ReachesTransfer (e : Env) (w : DateTime) (files : List FileEntry) : Prop :=
  e.since = none ∧ e.wmFileExists = true ∧
  strptime e.wmContent wmMask = some w ∧ e.lftpAvailable = true ∧
  w.key < e.now.key ∧
  filesToSend e.fsys e.conf.dirMask e.conf.fileMask w e.now = .ok files ∧
  files ≠ [] ∧ (files.map FileEntry.base).Nodup

instance (e : Env) (w : DateTime) (files : List FileEntry) :
    Decidable (ReachesTransfer e w files) := by
  unfold ReachesTransfer
  infer_instance

/-- The effect trace accumulated by the time `main` has invoked the external
tool: staging, invocation with the built command, and the report of the
tool's exit code and captured output. -/
def preEvents (e : Env) (files : List FileEntry) : List Event :=
  [.stagingCreated files,
   .transferInvoked (create_lftp_command e.lftpPath e.conf e.workDir e.logFilePath),
   .transferReported e.transferCode e.transferOut e.transferErr]



/-- File mask `"f%Y%m%d.d"` used by the concrete test environments. -/
def fmA : Mask := [.lit 'f', .Y, .m, .d, .lit '.', .lit 'd']

/-- Constant directory mask `"p"` used by the concrete test environments. -/
def dmA : Mask := [.lit 'p']

/-- Configuration used by the concrete test environments. -/
def confA : Config :=
  ⟨"u".toList, "pw".toList, "srv".toList, "rdir".toList, dmA, fmA⟩

/-- A concrete healthy run: watermark 2023-10-01, `now` 2023-10-03 (next-day
midnight), one candidate file `p/f20231002.d`, and a transfer log recording
its upload. -/
def baseEnv : Env :=
  { since := none, wmFileExists := true, wmContent := "20231001T000000".toList,
    lftpAvailable := true, lftpPath := "lftp".toList, conf := confA,
    now := ⟨2023, 10, 3, 0, 0, 0⟩,
    fsys := [⟨"p".toList, "f20231002.d".toList⟩],
    workDir := "wd".toList, logFilePath := "lg".toList,
    transferCode := 0, transferOut := [], transferErr := [],
    logAfter := ["get -O srv/rdir file:/f20231002.d".toList] }

/-- On-disk file whose basename has a non-canonical field width: it parses
under `fmA` (CPython's `%m` accepts `"10"` and `%d` accepts a bare `"2"`) but
never matches any day's canonically rendered glob pattern. -/
def cexFile : FileEntry := ⟨"p".toList, "f2023102.d".toList⟩

/-- Watermark used by the selector counterexample. -/
def cexW : DateTime := ⟨2023, 10, 1, 0, 0, 0⟩

/-- Next-day midnight boundary used by the selector counterexample. -/
def cexNow : DateTime := ⟨2023, 10, 3, 0, 0, 0⟩

/-- On-disk file with a canonical basename, selected by the selector
characterization witness. -/
def witFile : FileEntry := ⟨"p".toList, "f20230902.d".toList⟩

/-- Transfer-log lines used by the log-reconciler witness: one `get` record
and one unrelated line. -/
def exLines : List Str :=
  ["get -O srv/rdir file:/20240115T120000".toList, "mirror ok".toList]

/-- A `--since` run whose supplied date is not below `now`: the watermark
file is seeded and the run then dies at the comparison. -/
def envC3 : Env := { baseEnv with since := some ⟨2099, 1, 1, 0, 0, 0⟩ }

/-- A run without `--since` whose persisted watermark is far in the future. -/
def envC3w : Env := { baseEnv with wmContent := "20991231T000000".toList }

/-- A run whose transfer fails (exit code 3) and leaves no `get` line in the
log. -/
def envC4 : Env :=
  { baseEnv with transferCode := 3,
                 logAfter := ["mirror: Access failed".toList] }

/-- A run whose transfer reports a nonzero exit code but whose log still
holds a `get` record. -/
def envC4w : Env := { baseEnv with transferCode := 5 }

/-- A run reaching reconciliation with a log holding no `get` line at all. -/
def envC5 : Env := { baseEnv with transferCode := 1, logAfter := [] }

/-- A run with an empty filesystem, hence an empty candidate list. -/
def envC6 : Env := { baseEnv with fsys := [] }

/-- A run without `--since` whose watermark file holds unparseable text. -/
def envC9 : Env := { baseEnv with wmContent := "hello".toList }

/-- A `--since` run against an existing watermark file holding a strictly
later timestamp than the supplied date. -/
def envC10 : Env := { baseEnv with since := some ⟨2020, 5, 5, 5, 5, 5⟩ }

/-- Value of a rendered digit. -/
theorem digitVal_digitChar {k : Nat} (h : k < 10) :
    digitVal (Nat.digitChar k) = some k := by
  interval_cases k <;> decide

/-- A month length never exceeds 31. -/
theorem daysInMonth_le (y m : Nat) : daysInMonth y m ≤ 31 := by
  unfold daysInMonth
  split
  · split <;> omega
  · split <;> omega

/-- A literal token consumes its own character. -/
theorem parseToks_lit {ts : Mask} {rest : Str} {fl r : Fields} (c : Char)
    (h : parseToks ts rest fl = some r) :
    parseToks (Tok.lit c :: ts) (c :: rest) fl = some r := by
  simp [parseToks, h]

/-- On a canonical four-digit year the `%Y` alternative succeeds with the
year itself. -/
theorem parseToks_Y {y : Nat} {ts : Mask} {rest : Str} {fl r : Fields}
    (hy : y ≤ 9999)
    (h : parseToks ts rest (setField Tok.Y y fl) = some r) :
    parseToks (Tok.Y :: ts) (pad4 y ++ rest) fl = some r := by
  have e1 := digitVal_digitChar (k := y / 1000 % 10) (by omega)
  have e2 := digitVal_digitChar (k := y / 100 % 10) (by omega)
  have e3 := digitVal_digitChar (k := y / 10 % 10) (by omega)
  have e4 := digitVal_digitChar (k := y % 10) (by omega)
  have hv : y / 1000 % 10 * 1000 + y / 100 % 10 * 100 + y / 10 % 10 * 10 + y % 10 = y := by
    omega
  simp [pad4, parseToks, cands, e1, e2, e3, e4, List.findSome?_cons, hv, h]

/-- On a canonical two-digit month the first applicable `%m` alternative is
the month itself. -/
theorem parseToks_m {mo : Nat} {ts : Mask} {rest : Str} {fl r : Fields}
    (hmo : 1 ≤ mo ∧ mo ≤ 12)
    (h : parseToks ts rest (setField Tok.m mo fl) = some r) :
    parseToks (Tok.m :: ts) (pad2 mo ++ rest) fl = some r := by
  obtain ⟨hmo1, hmo2⟩ := hmo
  interval_cases mo <;>
    simp [parseToks, pad2, cands, digitVal, Nat.digitChar, List.findSome?_cons, h]

/-- On a canonical two-digit day the first applicable `%d` alternative is the
day itself. -/
theorem parseToks_d {dy : Nat} {ts : Mask} {rest : Str} {fl r : Fields}
    (hdy : 1 ≤ dy ∧ dy ≤ 31)
    (h : parseToks ts rest (setField Tok.d dy fl) = some r) :
    parseToks (Tok.d :: ts) (pad2 dy ++ rest) fl = some r := by
  obtain ⟨hdy1, hdy2⟩ := hdy
  interval_cases dy <;>
    simp [parseToks, pad2, cands, digitVal, Nat.digitChar, List.findSome?_cons, h]

/-- On a canonical two-digit hour the first applicable `%H` alternative is
the hour itself. -/
theorem parseToks_H {hr : Nat} {ts : Mask} {rest : Str} {fl r : Fields}
    (hhr : hr ≤ 23)
    (h : parseToks ts rest (setField Tok.H hr fl) = some r) :
    parseToks (Tok.H :: ts) (pad2 hr ++ rest) fl = some r := by
  interval_cases hr <;>
    simp [parseToks, pad2, cands, digitVal, Nat.digitChar, List.findSome?_cons, h]

/-- On a canonical two-digit minute the first applicable `%M` alternative is
the minute itself. -/
theorem parseToks_Mi {mi : Nat} {ts : Mask} {rest : Str} {fl r : Fields}
    (hmi : mi ≤ 59)
    (h : parseToks ts rest (setField Tok.Mi mi fl) = some r) :
    parseToks (Tok.Mi :: ts) (pad2 mi ++ rest) fl = some r := by
  interval_cases mi <;>
    simp [parseToks, pad2, cands, digitVal, Nat.digitChar, List.findSome?_cons, h]

/-- On a canonical two-digit second the first applicable `%S` alternative is
the second itself. -/
theorem parseToks_S {sc : Nat} {ts : Mask} {rest : Str} {fl r : Fields}
    (hsc : sc ≤ 59)
    (h : parseToks ts rest (setField Tok.S sc fl) = some r) :
    parseToks (Tok.S :: ts) (pad2 sc ++ rest) fl = some r := by
  interval_cases sc <;>
    simp [parseToks, pad2, cands, digitVal, Nat.digitChar, List.findSome?_cons, h]

/-- Writing a valid datetime with `MinDate.write`'s format and parsing the
text back with `MinDate.read`'s `strptime` recovers exactly the same
datetime. -/
theorem wm_parse_of_write (t : DateTime) (hv : validDT t = true) :
    strptime (minDateWriteContent t) wmMask = some t := by
  obtain ⟨y, mo, dy, hr, mi, sc⟩ := t
  have h := hv
  simp only [validDT, Bool.and_eq_true, decide_eq_true_eq] at h
  obtain ⟨⟨⟨⟨⟨⟨⟨⟨h1, h2⟩, h3⟩, h4⟩, h5⟩, h6⟩, h7⟩, h8⟩, h9⟩ := h
  have hshape : minDateWriteContent ⟨y, mo, dy, hr, mi, sc⟩ =
      pad4 y ++ (pad2 mo ++ (pad2 dy ++ ('T' ::
        (pad2 hr ++ (pad2 mi ++ (pad2 sc ++ ([] : Str))))))) := by
    simp [minDateWriteContent, strftime, wmMask]
  have hp : parseToks wmMask (minDateWriteContent ⟨y, mo, dy, hr, mi, sc⟩) {} =
      some ⟨some y, some mo, some dy, some hr, some mi, some sc⟩ := by
    rw [hshape]
    apply parseToks_Y h2
    apply parseToks_m ⟨h3, h4⟩
    apply parseToks_d ⟨h5, le_trans h6 (daysInMonth_le y mo)⟩
    apply parseToks_lit
    apply parseToks_H h7
    apply parseToks_Mi h8
    apply parseToks_S h9
    rfl
  simp [strptime, hp, hv]

/-- Unfolding step of `pyMax`. -/
theorem pyMax_cons (hd x : DateTime) (xs : List DateTime) :
    pyMax hd (x :: xs) = pyMax (if hd.key < x.key then x else hd) xs := rfl

/-- Python's `max` returns an element of the list. -/
theorem pyMax_mem : ∀ (l : List DateTime) (hd : DateTime), pyMax hd l ∈ hd :: l
  | [], hd => by simp [pyMax]
  | x :: xs, hd => by
    rw [pyMax_cons]
    have h := pyMax_mem xs (if hd.key < x.key then x else hd)
    rcases List.mem_cons.mp h with h' | h'
    · rw [h']
      split <;> simp
    · simp [h']

/-- Python's `max` bounds every element of the list. -/
theorem pyMax_ub : ∀ (l : List DateTime) (hd a : DateTime),
    a ∈ hd :: l → a.key ≤ (pyMax hd l).key
  | [], hd, a, ha => by
    simp at ha
    simp [pyMax, ha]
  | x :: xs, hd, a, ha => by
    rw [pyMax_cons]
    have hhd : hd.key ≤ (if hd.key < x.key then x else hd).key := by
      split <;> omega
    have hx : x.key ≤ (if hd.key < x.key then x else hd).key := by
      split <;> omega
    have hself := pyMax_ub xs (if hd.key < x.key then x else hd)
      (if hd.key < x.key then x else hd) (List.mem_cons_self _ _)
    rcases List.mem_cons.mp ha with h' | h'
    · subst h'; omega
    · rcases List.mem_cons.mp h' with h'' | h''
      · subst h''; omega
      · exact pyMax_ub xs _ a (List.mem_cons_of_mem _ h'')

/-- Membership in an insertion step. -/
theorem mem_insertLe (a x : FileEntry) :
    ∀ l : List FileEntry, a ∈ insertLe x l ↔ a = x ∨ a ∈ l
  | [] => by simp [insertLe]
  | y :: ys => by
    simp only [insertLe]
    split
    · simp
    · rw [List.mem_cons, mem_insertLe a x ys, List.mem_cons]
      tauto

/-- Sorting preserves membership. -/
theorem mem_sortLe (a : FileEntry) :
    ∀ l : List FileEntry, a ∈ sortLe l ↔ a ∈ l
  | [] => Iff.rfl
  | x :: xs => by
    simp only [sortLe]
    rw [mem_insertLe, mem_sortLe a xs, List.mem_cons]

/-- A file is in a day's glob result exactly when it is on disk and both of
the day's patterns match it. -/
theorem mem_globFiles (f : FileEntry) (fsys : List FileEntry)
    (dirMask fileMask : Mask) (d : DateTime) :
    f ∈ globFiles fsys dirMask fileMask d ↔
      f ∈ fsys ∧ globMatch (globPattern dirMask d) f.dir = true ∧
        globMatch (globPattern fileMask d) f.base = true := by
  unfold globFiles
  rw [mem_sortLe, List.mem_filter, Bool.and_eq_true]

/-- When the per-day filter of lines 257-260 completes without an exception,
its result holds exactly the input files whose basename parses to a
timestamp strictly above the watermark. -/
theorem keepNew_ok_mem {mask : Mask} {w : DateTime} :
    ∀ {files K : List FileEntry}, keepNew files mask w = .ok K →
      ∀ g : FileEntry, (g ∈ K ↔ g ∈ files ∧
        ∃ t, strptime g.base mask = some t ∧ w.key < t.key)
  | [], K, h, g => by
    simp only [keepNew] at h
    cases h
    simp
  | f :: fs, K, h, g => by
    simp only [keepNew] at h
    cases hp : strptime f.base mask with
    | none => rw [hp] at h; cases h
    | some t =>
      rw [hp] at h
      cases hk : keepNew fs mask w with
      | error e => rw [hk] at h; cases h
      | ok tail =>
        rw [hk] at h
        cases h
        have ih := keepNew_ok_mem hk g
        constructor
        · intro hg
          by_cases hlt : w.key < t.key
          · rw [if_pos hlt] at hg
            rcases List.mem_cons.mp hg with h' | h'
            · subst h'
              exact ⟨List.mem_cons_self _ _, t, hp, hlt⟩
            · have := ih.mp h'
              exact ⟨List.mem_cons_of_mem _ this.1, this.2⟩
          · rw [if_neg hlt] at hg
            have := ih.mp hg
            exact ⟨List.mem_cons_of_mem _ this.1, this.2⟩
        · rintro ⟨hmem, t', hp', hlt'⟩
          rcases List.mem_cons.mp hmem with h' | h'
          · subst h'
            rw [hp] at hp'
            cases hp'
            rw [if_pos hlt']
            exact List.mem_cons_self _ _
          · have hin := ih.mpr ⟨h', t', hp', hlt'⟩
            split <;> [exact List.mem_cons_of_mem _ hin; exact hin]

/-- When the full selection loop completes without an exception, a file is
selected exactly when some day of the list globs it and its basename parses
strictly above the watermark. -/
theorem selectFiles_ok_mem {fsys : List FileEntry} {dirMask fileMask : Mask}
    {w : DateTime} :
    ∀ {ds : List DateTime} {L : List FileEntry},
      selectFiles fsys dirMask fileMask w ds = .ok L →
      ∀ f : FileEntry, (f ∈ L ↔ ∃ d ∈ ds, f ∈ globFiles fsys dirMask fileMask d ∧
        ∃ t, strptime f.base fileMask = some t ∧ w.key < t.key)
  | [], L, h, f => by
    simp only [selectFiles] at h
    cases h
    simp
  | d :: ds, L, h, f => by
    simp only [selectFiles] at h
    cases hk : keepNew (globFiles fsys dirMask fileMask d) fileMask w with
    | error e => rw [hk] at h; cases h
    | ok kept =>
      rw [hk] at h
      cases hs : selectFiles fsys dirMask fileMask w ds with
      | error e => rw [hs] at h; cases h
      | ok rest =>
        rw [hs] at h
        cases h
        have ihHead := keepNew_ok_mem hk f
        have ihTail := selectFiles_ok_mem hs f
        rw [List.mem_append, ihHead, ihTail]
        constructor
        · rintro (⟨hg, t, hp, hl⟩ | ⟨d', hd', hg', hp'⟩)
          · exact ⟨d, List.mem_cons_self _ _, hg, t, hp, hl⟩
          · exact ⟨d', List.mem_cons_of_mem _ hd', hg', hp'⟩
        · rintro ⟨d', hd', hg', hp'⟩
          rcases List.mem_cons.mp hd' with h' | h'
          · subst h'
            exact Or.inl ⟨hg', hp'⟩
          · exact Or.inr ⟨d', h', hg', hp'⟩

/-- A run that reaches the transfer invocation ends according to the log
reconciliation alone: a parse failure raises `ValueError`, an empty
reconciliation makes `write(None)` raise `AttributeError`, and a recovered
date is written and the run exits 0 — in every case after the transfer
report, and never depending on the tool's exit code. -/
theorem mainRun_reach {e : Env} {w : DateTime} {files : List FileEntry}
    (h : ReachesTransfer e w files) :
    mainRun e =
      match find_last_date_in_log e.logAfter e.conf.fileMask with
      | .error _ => ⟨.valueError, preEvents e files⟩
      | .ok none => ⟨.attributeError, preEvents e files⟩
      | .ok (some d) => ⟨.exited 0, preEvents e files ++ [.writeWatermark d]⟩ := by
  obtain ⟨h1, h2, h3, h4, h5, h6, h7, h8⟩ := h
  have h5' : ¬ (e.now.key ≤ w.key) := Nat.not_le.mpr h5
  unfold mainRun preEvents
  rw [h1, h2, h3, h4]
  simp [h5', h6, h7, h8]
/-- Claim C1, corrected.  The candidate list is characterized by the glob
patterns of the generated day range, not by the parsed calendar date alone:
a file is selected exactly when it is on disk, some day of the range's
wildcarded dir/file patterns match its directory and basename, and its
basename parses under the exact file mask strictly above the watermark. -/
theorem C1_selector_characterization (fsys : List FileEntry)
    (dirMask fileMask : Mask) (w now : DateTime) (L : List FileEntry)
    (h : filesToSend fsys dirMask fileMask w now = .ok L) (f : FileEntry) :
    f ∈ L ↔ f ∈ fsys
      ∧ (∃ d ∈ listDates w now, globMatch (globPattern dirMask d) f.dir = true
          ∧ globMatch (globPattern fileMask d) f.base = true)
      ∧ (∃ t, strptime f.base fileMask = some t ∧ w.key < t.key) := by
  unfold filesToSend at h
  rw [selectFiles_ok_mem h f]
  constructor
  · rintro ⟨d, hd, hg, t, hp, hl⟩
    rw [mem_globFiles] at hg
    exact ⟨hg.1, ⟨d, hd, hg.2.1, hg.2.2⟩, t, hp, hl⟩
  · rintro ⟨hfs, ⟨d, hd, hg1, hg2⟩, t, hp, hl⟩
    exact ⟨d, hd, (mem_globFiles f fsys dirMask fileMask d).mpr ⟨hfs, hg1, hg2⟩,
      t, hp, hl⟩

/-- Claim C1, counterexample to the claim as stated: `p/f2023102.d` is on
disk, its basename parses under the file mask to 2023-10-02, strictly above
the watermark 2023-10-01, and that calendar date lies within the generated
day range — yet the selector returns the empty list, because the
non-canonical field widths never match the canonically rendered glob
pattern of any day. -/
theorem C1_counterexample :
    filesToSend [cexFile] dmA fmA cexW cexNow = .ok []
    ∧ cexFile ∈ [cexFile]
    ∧ strptime cexFile.base fmA = some ⟨2023, 10, 2, 0, 0, 0⟩
    ∧ cexW.key < DateTime.key ⟨2023, 10, 2, 0, 0, 0⟩
    ∧ (2023, 10, 2) ∈ (listDates cexW cexNow).map (fun d => (d.year, d.month, d.day)) := by
  decide

/-- Claim C1, witness: the characterization applied to a concrete run with
one canonical on-disk file, which is selected. -/
theorem C1_selector_witness :
    filesToSend [witFile] dmA fmA ⟨2023, 9, 1, 0, 0, 0⟩ ⟨2023, 9, 3, 0, 0, 0⟩ = .ok [witFile]
    ∧ (witFile ∈ [witFile] ↔ witFile ∈ [witFile]
        ∧ (∃ d ∈ listDates ⟨2023, 9, 1, 0, 0, 0⟩ ⟨2023, 9, 3, 0, 0, 0⟩,
            globMatch (globPattern dmA d) witFile.dir = true
            ∧ globMatch (globPattern fmA d) witFile.base = true)
        ∧ (∃ t, strptime witFile.base fmA = some t
            ∧ DateTime.key ⟨2023, 9, 1, 0, 0, 0⟩ < t.key)) :=
  ⟨by decide,
   C1_selector_characterization [witFile] dmA fmA ⟨2023, 9, 1, 0, 0, 0⟩
     ⟨2023, 9, 3, 0, 0, 0⟩ [witFile] (by decide) witFile⟩

/-- Claim C2, confirmed.  When every basename extracted from the log's
`get`-prefixed lines (basename of the last whitespace token) parses under
the file mask, `find_last_date_in_log` returns `None` exactly when no such
line exists, and otherwise the maximum of the parsed timestamps minus the
fixed one-hour margin. -/
theorem C2_log_reconciler (lines : List Str) (mask : Mask)
    (ds : List DateTime) (h : mapParse (extractedFiles lines) mask = .ok ds) :
    (lines.filter isGetLine = [] → find_last_date_in_log lines mask = .ok none)
    ∧ (∀ d0 rest, ds = d0 :: rest →
        ∃ dmax, dmax ∈ ds ∧ (∀ x ∈ ds, x.key ≤ dmax.key) ∧
          find_last_date_in_log lines mask = .ok (some (subSeconds dmax 3600))) := by
  constructor
  · intro hempty
    have hfiles : extractedFiles lines = [] := by
      simp [extractedFiles, hempty]
    rw [hfiles] at h
    simp [find_last_date_in_log, hfiles, mapParse]
  · intro d0 rest hds
    subst hds
    refine ⟨pyMax d0 rest, pyMax_mem rest d0, fun x hx => pyMax_ub rest d0 x hx, ?_⟩
    simp [find_last_date_in_log, h]

/-- Claim C2, witness: a log with one `get` record and one unrelated line,
reconciled with the watermark mask. -/
theorem C2_log_reconciler_witness :
    mapParse (extractedFiles exLines) wmMask = .ok [⟨2024, 1, 15, 12, 0, 0⟩]
    ∧ ((exLines.filter isGetLine = [] →
          find_last_date_in_log exLines wmMask = .ok none)
       ∧ (∀ d0 rest, [(⟨2024, 1, 15, 12, 0, 0⟩ : DateTime)] = d0 :: rest →
          ∃ dmax, dmax ∈ [(⟨2024, 1, 15, 12, 0, 0⟩ : DateTime)]
            ∧ (∀ x ∈ [(⟨2024, 1, 15, 12, 0, 0⟩ : DateTime)], x.key ≤ dmax.key)
            ∧ find_last_date_in_log exLines wmMask = .ok (some (subSeconds dmax 3600)))) :=
  ⟨by decide, C2_log_reconciler exLines wmMask [⟨2024, 1, 15, 12, 0, 0⟩] (by decide)⟩

/-- Claim C3, corrected (amended part).  In a run without `--since` whose
persisted watermark parses to a value not strictly below `now`, the run
exits with code 1 and performs no side effect at all (no watermark write,
no staging, no transfer invocation). -/
theorem C3_stale_watermark_aborts (e : Env) (w : DateTime)
    (h1 : e.since = none) (h2 : e.wmFileExists = true)
    (h3 : strptime e.wmContent wmMask = some w)
    (h4 : e.now.key ≤ w.key) :
    mainRun e = ⟨.exited 1, []⟩ := by
  unfold mainRun
  rw [h1, h2, h3]
  simp [h4]

/-- Claim C3, counterexample to the claim as stated: a `--since` run whose
supplied watermark 2099-01-01 is not below `now` still writes the watermark
file (a filesystem side effect) before aborting — and it aborts through the
uncaught `TypeError` of line 235, not through the explicit check. -/
theorem C3_counterexample :
    DateTime.key envC3.now ≤ DateTime.key ⟨2099, 1, 1, 0, 0, 0⟩
    ∧ envC3.since = some ⟨2099, 1, 1, 0, 0, 0⟩
    ∧ mainRun envC3 = ⟨.typeError, [.writeWatermark ⟨2099, 1, 1, 0, 0, 0⟩]⟩ := by
  decide

/-- Claim C3, witness: a run without `--since` whose stored watermark
2099-12-31 is beyond `now` exits 1 with an empty effect trace. -/
theorem C3_witness :
    (envC3w.since = none ∧ envC3w.wmFileExists = true
     ∧ strptime envC3w.wmContent wmMask = some ⟨2099, 12, 31, 0, 0, 0⟩
     ∧ DateTime.key envC3w.now ≤ DateTime.key ⟨2099, 12, 31, 0, 0, 0⟩)
    ∧ mainRun envC3w = ⟨.exited 1, []⟩ :=
  ⟨⟨rfl, rfl, by decide, by decide⟩,
   C3_stale_watermark_aborts envC3w ⟨2099, 12, 31, 0, 0, 0⟩ rfl rfl
     (by decide) (by decide)⟩

/-- Claim C4, corrected (amended part).  In a run reaching the transfer
invocation, the tool's exit code (an arbitrary value here) is reported
together with the built command and the captured output, does not alter
control flow, and — provided the log reconciliation recovers a timestamp —
the watermark-update step still runs and the run's own exit code is 0. -/
theorem C4_transfer_failure_reported (e : Env) (w : DateTime)
    (files : List FileEntry) (d : DateTime)
    (h : ReachesTransfer e w files)
    (hrec : find_last_date_in_log e.logAfter e.conf.fileMask = .ok (some d)) :
    mainRun e = ⟨.exited 0,
      [.stagingCreated files,
       .transferInvoked (create_lftp_command e.lftpPath e.conf e.workDir e.logFilePath),
       .transferReported e.transferCode e.transferOut e.transferErr,
       .writeWatermark d]⟩ := by
  rw [mainRun_reach h, hrec]
  rfl

/-- Claim C4, counterexample to the claim as stated: a failed transfer (exit
code 3) that leaves no `get` line in the log is duly reported, but the run's
own exit code is not 0 — the watermark-update step crashes with
`AttributeError`. -/
theorem C4_counterexample :
    envC4.transferCode = 3
    ∧ mainRun envC4 = ⟨.attributeError,
        preEvents envC4 [⟨"p".toList, "f20231002.d".toList⟩]⟩
    ∧ (mainRun envC4).outcome ≠ .exited 0 := by
  decide

/-- Claim C4, witness: a transfer reporting exit code 5 whose log still
records the upload; the report is emitted and the watermark update runs,
with overall exit code 0. -/
theorem C4_witness :
    (ReachesTransfer envC4w ⟨2023, 10, 1, 0, 0, 0⟩ [⟨"p".toList, "f20231002.d".toList⟩]
     ∧ find_last_date_in_log envC4w.logAfter envC4w.conf.fileMask
         = .ok (some ⟨2023, 10, 1, 23, 0, 0⟩))
    ∧ mainRun envC4w = ⟨.exited 0,
        [.stagingCreated [⟨"p".toList, "f20231002.d".toList⟩],
         .transferInvoked (create_lftp_command envC4w.lftpPath envC4w.conf
           envC4w.workDir envC4w.logFilePath),
         .transferReported envC4w.transferCode envC4w.transferOut envC4w.transferErr,
         .writeWatermark ⟨2023, 10, 1, 23, 0, 0⟩]⟩ :=
  ⟨⟨by decide, by decide⟩,
   C4_transfer_failure_reported envC4w ⟨2023, 10, 1, 0, 0, 0⟩
     [⟨"p".toList, "f20231002.d".toList⟩] ⟨2023, 10, 1, 23, 0, 0⟩
     (by decide) (by decide)⟩

/-- Claim C5, code bug.  In a run whose transfer log holds no `get` line at
the reconciliation step, reconciliation does return `None` and the watermark
file is indeed not overwritten — but instead of exiting 0 the code passes
`None` to `MinDate.write`, whose `new_min_date.strftime` raises an uncaught
`AttributeError` (only `ValueError` is caught), so the process dies with a
traceback and a nonzero exit status. -/
theorem C5_reconciliation_none_crashes :
    find_last_date_in_log envC5.logAfter envC5.conf.fileMask = .ok none
    ∧ mainRun envC5 = ⟨.attributeError,
        preEvents envC5 [⟨"p".toList, "f20231002.d".toList⟩]⟩
    ∧ (mainRun envC5).outcome ≠ .exited 0 := by
  decide

/-- Claim C6, confirmed.  In a run that reaches the candidate selector (so
no `--since`: the seeding path never reaches selection) and the selector
yields the empty list, the run exits 0 with an empty effect trace: the
external tool is never invoked and the watermark file is never written. -/
theorem C6_empty_candidates (e : Env) (w : DateTime)
    (h1 : e.since = none) (h2 : e.wmFileExists = true)
    (h3 : strptime e.wmContent wmMask = some w) (h4 : e.lftpAvailable = true)
    (h5 : w.key < e.now.key)
    (h6 : filesToSend e.fsys e.conf.dirMask e.conf.fileMask w e.now = .ok []) :
    mainRun e = ⟨.exited 0, []⟩ := by
  unfold mainRun
  rw [h1, h2, h3, h4]
  simp [Nat.not_le.mpr h5, h6]

/-- Claim C6, witness: an empty filesystem yields an empty candidate list
and a clean, effect-free exit. -/
theorem C6_witness :
    (envC6.since = none ∧ strptime envC6.wmContent wmMask = some ⟨2023, 10, 1, 0, 0, 0⟩
     ∧ filesToSend envC6.fsys envC6.conf.dirMask envC6.conf.fileMask
         ⟨2023, 10, 1, 0, 0, 0⟩ envC6.now = .ok [])
    ∧ mainRun envC6 = ⟨.exited 0, []⟩ :=
  ⟨⟨rfl, by decide, by decide⟩,
   C6_empty_candidates envC6 ⟨2023, 10, 1, 0, 0, 0⟩ rfl rfl (by decide) rfl
     (by decide) (by decide)⟩

/-- Claim C7, confirmed.  Writing any valid timestamp through
`MinDate.write`'s fixed `"%Y%m%dT%H%M%S"` encoding and reading the file back
through `MinDate.read` recovers exactly the same timestamp at second
precision, whatever the previous in-memory value was. -/
theorem C7_watermark_roundtrip (t : DateTime) (prev : Option DateTime)
    (h : validDT t = true) :
    minDateRead (minDateWriteContent t) prev = (some t, false) := by
  simp [minDateRead, wm_parse_of_write t h]

/-- Claim C7, witness: the roundtrip on the leap-day timestamp
2024-02-29T23:59:58 starting from an unset watermark. -/
theorem C7_witness :
    validDT ⟨2024, 2, 29, 23, 59, 58⟩ = true
    ∧ minDateRead (minDateWriteContent ⟨2024, 2, 29, 23, 59, 58⟩) none
        = (some ⟨2024, 2, 29, 23, 59, 58⟩, false) :=
  ⟨by decide, C7_watermark_roundtrip ⟨2024, 2, 29, 23, 59, 58⟩ none (by decide)⟩

/-- Claim C8, confirmed.  When the persisted watermark text does not parse
under the fixed `"%Y%m%dT%H%M%S"` encoding, `MinDate.read` catches the
`ValueError`, reports the error (the `true` flag), and leaves the in-memory
watermark at its previous value; no exception escapes the store. -/
theorem C8_malformed_read (content : Str) (prev : Option DateTime)
    (h : strptime content wmMask = none) :
    minDateRead content prev = (prev, true) := by
  simp [minDateRead, h]

/-- Claim C8, witness: unparseable stored text against a previously set
in-memory watermark. -/
theorem C8_witness :
    strptime "not-a-date".toList wmMask = none
    ∧ minDateRead "not-a-date".toList (some ⟨2023, 1, 1, 0, 0, 0⟩)
        = (some ⟨2023, 1, 1, 0, 0, 0⟩, true) :=
  ⟨by decide, C8_malformed_read ("not-a-date".toList) (some ⟨2023, 1, 1, 0, 0, 0⟩)
    (by decide)⟩

/-- Claim C9, confirmed.  In a run without `--since` whose existing
watermark file holds unparseable text (and with `lftp` present, so the
earlier availability check does not exit first), the soft-failing read
leaves the in-memory watermark `None` and line 235's comparison of `None`
with `now` raises an uncaught `TypeError` before any candidate selection,
staging, or transfer: the effect trace is empty. -/
theorem C9_unparseable_watermark_type_error (e : Env)
    (h1 : e.since = none) (h2 : e.wmFileExists = true)
    (h3 : strptime e.wmContent wmMask = none) (h4 : e.lftpAvailable = true) :
    mainRun e = ⟨.typeError, []⟩ := by
  unfold mainRun
  rw [h1, h2, h3, h4]
  simp

/-- Claim C9, witness: a watermark file holding `"hello"`. -/
theorem C9_witness :
    (envC9.since = none ∧ envC9.wmFileExists = true
     ∧ strptime envC9.wmContent wmMask = none ∧ envC9.lftpAvailable = true)
    ∧ mainRun envC9 = ⟨.typeError, []⟩ :=
  ⟨⟨rfl, rfl, by decide, rfl⟩,
   C9_unparseable_watermark_type_error envC9 rfl rfl (by decide) rfl⟩

/-- Claim C10, confirmed.  In every `--since` run the supplied date is
written to the watermark file as the very first effect, and the run's entire
behaviour is independent of the existing watermark file's content and even
of its existence — so `--since` overwrites (possibly moving backwards) a
strictly later stored watermark unconditionally, before any transfer. -/
theorem C10_since_seeds_unconditionally (e : Env) (s : DateTime)
    (h : e.since = some s) :
    (mainRun e).events.head? = some (.writeWatermark s)
    ∧ ∀ c b, mainRun { e with wmContent := c, wmFileExists := b } = mainRun e := by
  constructor
  · unfold mainRun
    rw [h]
    by_cases hl : e.lftpAvailable <;> simp [hl]
  · intro c b
    unfold mainRun
    simp only [h]
    by_cases hl : e.lftpAvailable <;> simp [hl]

/-- Claim C10, witness: `--since 2020-05-05T05:05:05` against a stored
watermark of 2023-10-01; the seed write is the first effect, and erasing the
stored file changes nothing about the run. -/
theorem C10_witness :
    (mainRun envC10).events.head? = some (.writeWatermark ⟨2020, 5, 5, 5, 5, 5⟩)
    ∧ mainRun { envC10 with wmContent := "x".toList, wmFileExists := false }
        = mainRun envC10 :=
  ⟨(C10_since_seeds_unconditionally envC10 ⟨2020, 5, 5, 5, 5, 5⟩ rfl).1,
   (C10_since_seeds_unconditionally envC10 ⟨2020, 5, 5, 5, 5, 5⟩ rfl).2
     ("x".toList) false⟩
